import Mathlib

/-!
A shallow embedding of the Stable Diffusion scheduler export/runner pair
(`schedulers.py` and `schedulers_runner.py` from
`turbine_models/custom_models/sd_inference`).

Tensors are modelled as a shape (list of dimensions) together with a flat
list of rational values; the external scheduler algorithm and the denoising
network are modelled as abstract function parameters (the "capability set"
through which the repository's code uses them).  The sampling loops of both
files, the declared export shapes, and the two command-line pipelines are
transliterated from the source; the two pieces of repository code that live
outside the two files (`utils.get_schedulers` and `utils.largest_error`)
are modelled from the specification and marked as such.
-/

/-- A tensor: a shape together with flat row-major data. -/
structure Tensor where
  shape : List Nat
  data : List ℚ
  deriving Repr, DecidableEq

/-- Elementwise addition (shape taken from the first operand). -/
def tadd (x y : Tensor) : Tensor :=
  ⟨x.shape, List.zipWith (· + ·) x.data y.data⟩

/-- Elementwise subtraction (shape taken from the first operand). -/
def tsub (x y : Tensor) : Tensor :=
  ⟨x.shape, List.zipWith (· - ·) x.data y.data⟩

/-- Multiplication `tensor * scalar`, as in `latents * self.scheduler.init_noise_sigma`. -/
def tensorMulScalar (x : Tensor) (c : ℚ) : Tensor :=
  ⟨x.shape, x.data.map (fun a => a * c)⟩

/-- Multiplication `scalar * tensor`, as in `self.guidance_scale * (...)`. -/
def scalarMulTensor (c : ℚ) (x : Tensor) : Tensor :=
  ⟨x.shape, x.data.map (fun a => c * a)⟩

/-- Concatenation `torch.cat([latents] * 2)`: concatenation of a tensor with itself along
the leading (batch) dimension. -/
def cat2 (x : Tensor) : Tensor :=
  ⟨match x.shape with
    | [] => []
    | d :: rest => (2 * d) :: rest,
   x.data ++ x.data⟩

/-- Splitting `unet_out.chunk(2)`: split along the leading (batch) dimension into two
halves.  In the sampling loop this is only ever applied to the output of a
network fed a `cat2` input, whose leading dimension is even, so halving the
flat data is exact. -/
def chunk2 (x : Tensor) : Tensor × Tensor :=
  let half := x.data.length / 2
  let sh : List Nat :=
    match x.shape with
    | [] => []
    | d :: rest => (d / 2) :: rest
  (⟨sh, x.data.take half⟩, ⟨sh, x.data.drop half⟩)

/-- The denoising network: `(latent_model_input, t, encoder_hidden_states) ↦
noise prediction`.  External collaborator, modelled as an abstract function. -/
def Unet : Type := Tensor → Int → Tensor → Tensor

/-- The external scheduler algorithm after `set_timesteps` has been called:
the capability set `{init_noise_sigma, timesteps, scale_model_input, step}`
through which the sampling loop uses it. -/
structure SchedulerAlg where
  init_noise_sigma : ℚ
  timesteps : List Int
  scale_model_input : Tensor → Int → Tensor
  step : Tensor → Int → Tensor → Tensor

/-- Constant `self.guidance_scale = 7.5` (`schedulers.py` line 82). -/
def guidance_scale : ℚ := 15 / 2

/-- The classifier-free-guidance combination
`noise_pred_uncond + self.guidance_scale * (noise_pred_text - noise_pred_uncond)`
(`schedulers.py` lines 96-98). -/
def guidedNoise (noise_pred_uncond noise_pred_text : Tensor) : Tensor :=
  tadd noise_pred_uncond
    (scalarMulTensor guidance_scale (tsub noise_pred_text noise_pred_uncond))

namespace Schedulers

/-- Function `Scheduler.forward` from `schedulers.py` lines 84-100: scale the latents
once by `init_noise_sigma`, then fold the denoising step over the scheduler's
timestep sequence. -/
def Scheduler.forward (s : SchedulerAlg) (unet : Unet)
    (latents encoder_hidden_states : Tensor) : Tensor :=
  let latents := tensorMulScalar latents s.init_noise_sigma
  s.timesteps.foldl
    (fun latents t =>
      let latent_model_input := cat2 latents
      let latent_model_input := s.scale_model_input latent_model_input t
      let unet_out := unet latent_model_input t encoder_hidden_states
      let noise_pred_uncond := (chunk2 unet_out).1
      let noise_pred_text := (chunk2 unet_out).2
      let noise_pred :=
        tadd noise_pred_uncond
          (scalarMulTensor guidance_scale (tsub noise_pred_text noise_pred_uncond))
      s.step noise_pred t latents)
    latents

/-- Variant of `Scheduler.forward`, instrumented to also record, in order, each timestep
consumed by the loop body. -/
def Scheduler.forwardTrace (s : SchedulerAlg) (unet : Unet)
    (latents encoder_hidden_states : Tensor) : Tensor × List Int :=
  let latents := tensorMulScalar latents s.init_noise_sigma
  s.timesteps.foldl
    (fun (acc : Tensor × List Int) t =>
      let latents := acc.1
      let latent_model_input := cat2 latents
      let latent_model_input := s.scale_model_input latent_model_input t
      let unet_out := unet latent_model_input t encoder_hidden_states
      let noise_pred_uncond := (chunk2 unet_out).1
      let noise_pred_text := (chunk2 unet_out).2
      let noise_pred :=
        tadd noise_pred_uncond
          (scalarMulTensor guidance_scale (tsub noise_pred_text noise_pred_uncond))
      (s.step noise_pred t latents, acc.2 ++ [t]))
    (latents, [])

end Schedulers

/-- The per-step loop (`for t in self.scheduler.timesteps: ...`) on its own:
it takes only the scheduler's `scale_model_input` and `step` capabilities,
so it has no access to `init_noise_sigma`. -/
def denoiseLoop (scale_model_input : Tensor → Int → Tensor)
    ( step : Tensor → Int → Tensor → Tensor) (unet : Unet)
    (encoder_hidden_states : Tensor) (latents : Tensor) (ts : List Int) : Tensor :=
  ts.foldl
    (fun latents t =>
      let latent_model_input := cat2 latents
      let latent_model_input := scale_model_input latent_model_input t
      let unet_out := unet latent_model_input t encoder_hidden_states
      let noise_pred_uncond := (chunk2 unet_out).1
      let noise_pred_text := (chunk2 unet_out).2
      let noise_pred :=
        tadd noise_pred_uncond
          (scalarMulTensor guidance_scale (tsub noise_pred_text noise_pred_uncond))
      step noise_pred t latents)
    latents

namespace SchedulersRunner

/-- The inner `Scheduler.forward` from `schedulers_runner.py` lines 101-119
(the eager torch reference inside `run_torch_scheduler`). -/
def Scheduler.forward (s : SchedulerAlg) (unet : Unet)
    (latents encoder_hidden_states : Tensor) : Tensor :=
  let latents := tensorMulScalar latents s.init_noise_sigma
  s.timesteps.foldl
    (fun latents t =>
      let latent_model_input := cat2 latents
      let latent_model_input := s.scale_model_input latent_model_input t
      let unet_out := unet latent_model_input t encoder_hidden_states
      let noise_pred_uncond := (chunk2 unet_out).1
      let noise_pred_text := (chunk2 unet_out).2
      let noise_pred :=
        tadd noise_pred_uncond
          (scalarMulTensor guidance_scale (tsub noise_pred_text noise_pred_uncond))
      s.step noise_pred t latents)
    latents

end SchedulersRunner

/-- Shape `encoder_hidden_states_sizes` from `export_scheduler`
(`schedulers.py` lines 123-125): `(2, 77, 768)`, overridden to
`(2, 77, 1024)` for `stabilityai/stable-diffusion-2-1-base`. -/
def encoder_hidden_states_sizes (hf_model_name : String) : List Nat :=
  if hf_model_name = "stabilityai/stable-diffusion-2-1-base" then
    [2, 77, 1024]
  else
    [2, 77, 768]

/-- Shape `sample = (batch_size, 4, height // 8, width // 8)`
(`schedulers.py` line 127). -/
def sampleSizes (batch_size height width : Nat) : List Nat :=
  [batch_size, 4, height / 8, width / 8]

/-- The two input shapes declared by `export_scheduler` for the compiled
module `main` (`schedulers.py` lines 123-143): the latent `sample` shape and
the `encoder_hidden_states` shape. -/
def exportDeclaredShapes (hf_model_name : String)
    (batch_size height width : Nat) : List Nat × List Nat :=
  (sampleSizes batch_size height width, encoder_hidden_states_sizes hf_model_name)

/-- The runner's `encoder_hidden_states` assignment
(`schedulers_runner.py` lines 132-135): `if`/`elif` with no `else`, so any
other model name leaves the variable unassigned (`none`). -/
def runnerEncoderHiddenStates (hf_model_name : String) : Option (List Nat) :=
  if hf_model_name = "CompVis/stable-diffusion-v1-4" then
    some [2, 77, 768]
  else if hf_model_name = "stabilityai/stable-diffusion-2-1-base" then
    some [2, 77, 1024]
  else
    none

/-- Names for scheduler algorithms in the registry. -/
inductive SchedulerKind where
  | PNDM
  | DDIM
  deriving Repr, DecidableEq

/-- Modelled from the spec: `utils.get_schedulers` (in `utils.py`, which is
repository code not present under `src/`).  Per the spec's "Scheduler
registry" component, it "maps a string identifier to a concrete
noise-scheduling algorithm implementation (e.g. PNDM, DDIM, and similar)"
for the given model. -/
def get_schedulers (hf_model_name : String) : List (String × SchedulerKind) :=
  [("PNDM", SchedulerKind.PNDM), ("DDIM", SchedulerKind.DDIM)]

/-- Modelled from the spec: `utils.largest_error` (in `utils.py`, which is
repository code not present under `src/`).  Per the spec it is "the largest
absolute numeric error" between the reference output and the computed
output. -/
def largest_error (a b : List ℚ) : ℚ :=
  (List.zipWith (fun x y => |x - y|) a b).foldl max 0

/-- Observable work performed by the command-line pipelines: executing the
compiled artifact, loading the denoising network, and running the eager
torch sampling loop. -/
inductive Effect where
  | runVmfb
  | loadUnet
  | torchLoop
  deriving Repr, DecidableEq

/-- The ways a pipeline invocation aborts. -/
inductive RunnerErr where
  | nameError
  | keyError
  | assertionError
  deriving Repr, DecidableEq

/-- The runner's `__main__` (`schedulers_runner.py` lines 127-172), as a
result together with the ordered trace of effects performed before the
outcome.  `turbineOut` and `torchOut` stand for the numeric outputs of the
compiled artifact and of the eager reference (both external computations).

Order transliterated from the source: `encoder_hidden_states` is assigned
only for the two known model names (otherwise its first use in the
`run_scheduler` call raises a `NameError` before any compiled-artifact
execution); `run_scheduler` executes the compiled artifact; only then, and
only under `--compare_vs_torch`, is the scheduler registry consulted
(`schedulers[args.scheduler_id]`, a `KeyError` for unknown identifiers),
the torch reference run, and `assert err < 9e-3` checked. -/
def runnerMain (hf_model_name scheduler_id : String) (compareVsTorch : Bool)
    (turbineOut torchOut : List ℚ) : Except RunnerErr Unit × List Effect :=
  match runnerEncoderHiddenStates hf_model_name with
  | none => (Except.error RunnerErr.nameError, [])
  | some _ =>
    if compareVsTorch then
      match (get_schedulers hf_model_name).lookup scheduler_id with
      | none => (Except.error RunnerErr.keyError, [Effect.runVmfb])
      | some _ =>
        if largest_error torchOut turbineOut < 9 / 1000 then
          (Except.ok (), [Effect.runVmfb, Effect.loadUnet, Effect.torchLoop])
        else
          (Except.error RunnerErr.assertionError,
           [Effect.runVmfb, Effect.loadUnet, Effect.torchLoop])
    else
      (Except.ok (), [Effect.runVmfb])

/-- The exporter's `__main__` (`schedulers.py` lines 166-190): the registry
access `schedulers[args.scheduler_id]` happens first, so an unknown
identifier raises a `KeyError` before `Scheduler(...)` loads the network and
before any tracing. -/
def exporterMain (hf_model_name scheduler_id : String) :
    Except RunnerErr Unit × List Effect :=
  match (get_schedulers hf_model_name).lookup scheduler_id with
  | none => (Except.error RunnerErr.keyError, [])
  | some _ => (Except.ok (), [Effect.loadUnet])

/-- Identity denoising network, used to instantiate the abstract collaborator
on concrete inputs. -/
def idUnet : Unet := fun x _ _ => x

/-- A concrete scheduler whose rescaling is the identity and whose update
returns the current latents unchanged, used to instantiate the abstract
collaborator on concrete inputs. -/
def constSched (ts : List Int) : SchedulerAlg :=
  ⟨1, ts, fun x _ => x, fun _ _ latents => latents⟩

/-- A concrete latent tensor of shape `(1, 4, 1, 1)`. -/
def tinyLatent : Tensor := ⟨[1, 4, 1, 1], [0, 0, 0, 0]⟩

/-- A concrete conditioning tensor of shape `(2, 77, 768)` (data elided:
only shapes matter for the concrete instantiations below). -/
def tinyCond : Tensor := ⟨[2, 77, 768], []⟩

/-- Adding, elementwise, `g` times the pointwise difference is the pointwise
guidance formula. -/
lemma zipWith_guided (g : ℚ) :
    ∀ (u c : List ℚ),
      List.zipWith (· + ·) u
        (List.map (fun a => g * a) (List.zipWith (· - ·) c u)) =
      List.zipWith (fun a b => a + g * (b - a)) u c
  | [], _ => by simp
  | _ :: _, [] => by simp
  | a :: u, b :: c => by
    simp only [List.zipWith, List.map]
    exact congrArg _ (zipWith_guided g u c)

/-- A fold that additionally appends each consumed element to an accumulator
computes the plain fold together with the element list. -/
lemma foldl_trace (f : Tensor → Int → Tensor) :
    ∀ (ts : List Int) (x : Tensor) (acc : List Int),
      List.foldl (fun (p : Tensor × List Int) t => (f p.1 t, p.2 ++ [t])) (x, acc) ts =
        (List.foldl f x ts, acc ++ ts)
  | [], x, acc => by simp
  | t :: ts, x, acc => by
    rw [List.foldl_cons, List.foldl_cons, foldl_trace f ts (f x t) (acc ++ [t])]
    simp

/-- A fold over a shape-preserving body preserves the shape. -/
lemma foldl_shape (body : Tensor → Int → Tensor)
    (hbody : ∀ x t, (body x t).shape = x.shape) :
    ∀ (ts : List Int) (x : Tensor), (List.foldl body x ts).shape = x.shape
  | [], _ => rfl
  | t :: ts, x => by
    rw [List.foldl_cons, foldl_shape body hbody ts (body x t), hbody]

/-- C1 (counterexample): with batch size 2, the conditioning tensor declared
by `export_scheduler` still has shape `(2, 77, 768)`, whose leading dimension
is not `2 * 2`; so the conditioning tensor's first dimension does not equal
twice the batch size for every batch size. -/
theorem claim_C1_counterexample :
    (exportDeclaredShapes "CompVis/stable-diffusion-v1-4" 2 512 512).2 = [2, 77, 768] ∧
    (exportDeclaredShapes "CompVis/stable-diffusion-v1-4" 2 512 512).2 ≠ [2 * 2, 77, 768] := by
  constructor <;> decide

/-- C1 (amended): the conditioning tensor declared for the sampling loop has
the fixed shape `(2, 77, E)` independent of the configured batch size, with
`E = 768` (or `1024` for `stabilityai/stable-diffusion-2-1-base`); its first
dimension equals twice the batch size only in the default case of batch
size 1. -/
theorem claim_C1_amended (hf_model_name : String) (batch_size height width : Nat) :
    (exportDeclaredShapes hf_model_name batch_size height width).2
        = encoder_hidden_states_sizes hf_model_name ∧
    (encoder_hidden_states_sizes hf_model_name).headD 0 = 2 ∧
    encoder_hidden_states_sizes "stabilityai/stable-diffusion-2-1-base" = [2, 77, 1024] ∧
    encoder_hidden_states_sizes "CompVis/stable-diffusion-v1-4" = [2, 77, 768] ∧
    (batch_size = 1 →
      (exportDeclaredShapes hf_model_name batch_size height width).2.headD 0
        = 2 * batch_size) := by
  refine ⟨rfl, ?_, by decide, by decide, ?_⟩
  · unfold encoder_hidden_states_sizes
    split <;> rfl
  · intro hb
    subst hb
    show (encoder_hidden_states_sizes hf_model_name).headD 0 = 2 * 1
    unfold encoder_hidden_states_sizes
    split <;> rfl

/-- Witness for the amended C1 at the default configuration. -/
theorem claim_C1_amended_witness :
    (exportDeclaredShapes "CompVis/stable-diffusion-v1-4" 1 512 512).2.headD 0 = 2 * 1 :=
  (claim_C1_amended "CompVis/stable-diffusion-v1-4" 1 512 512).2.2.2.2 rfl

/-- C2: at every denoising step the guided noise prediction is
`noise_uncond + guidance_scale * (noise_cond - noise_uncond)` with the fixed
scalar `guidance_scale = 7.5`, where the unconditional and conditional
predictions are the first and second halves of the network output split
along the batch axis; elementwise the value is exactly `a + 7.5 * (b - a)`,
in this form. -/
theorem claim_C2 (s : SchedulerAlg) (unet : Unet) (latents ehs : Tensor) :
    guidance_scale = 15 / 2 ∧
    (∀ u c : Tensor,
      guidedNoise u c =
        ⟨u.shape, List.zipWith (fun a b => a + guidance_scale * (b - a)) u.data c.data⟩) ∧
    Schedulers.Scheduler.forward s unet latents ehs =
      s.timesteps.foldl
        (fun l t =>
          s.step
            (guidedNoise (chunk2 (unet (s.scale_model_input (cat2 l) t) t ehs)).1
              (chunk2 (unet (s.scale_model_input (cat2 l) t) t ehs)).2)
            t l)
        (tensorMulScalar latents s.init_noise_sigma) := by
  refine ⟨rfl, ?_, rfl⟩
  intro u c
  unfold guidedNoise tadd scalarMulTensor tsub
  exact congrArg (Tensor.mk u.shape) (zipWith_guided guidance_scale u.data c.data)

/-- C3: the initial latents are multiplied by `init_noise_sigma` exactly once,
before the first timestep; the per-step loop body (`denoiseLoop`) receives
only the `scale_model_input` and `step` capabilities, so the scaling cannot
recur inside it — this holds for every value of the sigma constant. -/
theorem claim_C3 (s : SchedulerAlg) (unet : Unet) (latents ehs : Tensor) (c : ℚ) :
    Schedulers.Scheduler.forward { s with init_noise_sigma := c } unet latents ehs =
      denoiseLoop s.scale_model_input s.step unet ehs
        (tensorMulScalar latents c) s.timesteps := rfl

/-- C4: instrumenting the loop shows it consumes the scheduler's timestep
sequence exactly, in order, with no early exit or restart, and computes the
same latents as the uninstrumented loop; when the sequence produced by
`set_timesteps` has length `N` (the configured step count), the loop
therefore performs exactly `N` iterations, for every scheduler algorithm. -/
theorem claim_C4 (s : SchedulerAlg) (unet : Unet) (latents ehs : Tensor) (N : Nat)
    (h : s.timesteps.length = N) :
    (Schedulers.Scheduler.forwardTrace s unet latents ehs).2 = s.timesteps ∧
    (Schedulers.Scheduler.forwardTrace s unet latents ehs).2.length = N ∧
    (Schedulers.Scheduler.forwardTrace s unet latents ehs).1 =
      Schedulers.Scheduler.forward s unet latents ehs := by
  have key :
      Schedulers.Scheduler.forwardTrace s unet latents ehs
        = (Schedulers.Scheduler.forward s unet latents ehs, [] ++ s.timesteps) :=
    foldl_trace
      (fun l t =>
        let latent_model_input := cat2 l
        let latent_model_input := s.scale_model_input latent_model_input t
        let unet_out := unet latent_model_input t ehs
        let noise_pred_uncond := (chunk2 unet_out).1
        let noise_pred_text := (chunk2 unet_out).2
        let noise_pred :=
          tadd noise_pred_uncond
            (scalarMulTensor guidance_scale (tsub noise_pred_text noise_pred_uncond))
        s.step noise_pred t l)
      s.timesteps (tensorMulScalar latents s.init_noise_sigma) []
  rw [key]
  exact ⟨by simp, by simp [h], rfl⟩

/-- Witness for C4 on a concrete three-element timestep sequence. -/
theorem claim_C4_witness :
    (Schedulers.Scheduler.forwardTrace (constSched [5, 3, 1]) idUnet
        tinyLatent tinyCond).2.length = 3 :=
  (claim_C4 (constSched [5, 3, 1]) idUnet tinyLatent tinyCond 3 rfl).2.1

/-- C9: the exporter's sampling loop (`Scheduler.forward` in `schedulers.py`)
and the runner's eager reference loop (the inner `Scheduler.forward` in
`run_torch_scheduler` in `schedulers_runner.py`) compute the same function of
the latents, the conditioning tensor, the scheduler and the network. -/
theorem claim_C9 (s : SchedulerAlg) (unet : Unet) (latents ehs : Tensor) :
    Schedulers.Scheduler.forward s unet latents ehs =
      SchedulersRunner.Scheduler.forward s unet latents ehs := rfl

/-- C5: for a latent input of shape `(B, 4, H/8, W/8)` with `H` and `W`
multiples of 8, if the external denoising network and the scheduler's
update are shape-preserving, then the latents held by the loop keep their
shape after every step (any run of `denoiseLoop`), and the forward pass
returns a tensor of the input's shape. -/
theorem claim_C5 (s : SchedulerAlg) (unet : Unet) (latents ehs : Tensor)
    (B H W : Nat) (hH : 8 ∣ H) (hW : 8 ∣ W)
    (hshape : latents.shape = [B, 4, H / 8, W / 8])
    (hunet : ∀ x t e, (unet x t e).shape = x.shape)
    (hstep : ∀ n t l, (s.step n t l).shape = l.shape) :
    (∀ (ts : List Int) (x : Tensor),
        (denoiseLoop s.scale_model_input s.step unet ehs x ts).shape = x.shape) ∧
    (Schedulers.Scheduler.forward s unet latents ehs).shape = latents.shape := by
  have hloop : ∀ (ts : List Int) (x : Tensor),
      (denoiseLoop s.scale_model_input s.step unet ehs x ts).shape = x.shape := by
    intro ts x
    exact foldl_shape _ (fun x t => hstep _ _ _) ts x
  refine ⟨hloop, ?_⟩
  have hfwd : Schedulers.Scheduler.forward s unet latents ehs
      = denoiseLoop s.scale_model_input s.step unet ehs
          (tensorMulScalar latents s.init_noise_sigma) s.timesteps := rfl
  rw [hfwd, hloop]
  rfl

/-- Witness for C5 with identity collaborators on a `(1, 4, 1, 1)` latent
(`H = W = 8`). -/
theorem claim_C5_witness :
    (Schedulers.Scheduler.forward (constSched [5, 3, 1]) idUnet
        tinyLatent tinyCond).shape = tinyLatent.shape :=
  (claim_C5 (constSched [5, 3, 1]) idUnet tinyLatent tinyCond 1 8 8
    (by decide) (by decide) rfl
    (fun _ _ _ => rfl) (fun _ _ _ => rfl)).2

/-- C6: when comparison against the eager reference is requested (and the
model and scheduler identifiers are known so that the comparison is
reached), the runner aborts with the assertion failure if and only if the
largest absolute error between reference and compiled outputs is at least
`9e-3`; any strictly smaller error is not treated as a correctness
failure. -/
theorem claim_C6 (hf_model_name scheduler_id : String) (sh : List Nat)
    (k : SchedulerKind) (turbineOut torchOut : List ℚ)
    (hm : runnerEncoderHiddenStates hf_model_name = some sh)
    (hs : (get_schedulers hf_model_name).lookup scheduler_id = some k) :
    (runnerMain hf_model_name scheduler_id true turbineOut torchOut).1
        = Except.error RunnerErr.assertionError
      ↔ 9 / 1000 ≤ largest_error torchOut turbineOut := by
  unfold runnerMain
  rw [hm, hs]
  by_cases hlt : largest_error torchOut turbineOut < 9 / 1000
  · simp only [if_pos hlt, if_true]
    exact iff_of_false (by simp) (not_le.mpr hlt)
  · simp only [if_neg hlt, if_true]
    exact iff_of_true (by simp) (not_lt.mp hlt)

/-- Witness for C6: outputs `[0]` and `[1]` have largest error 1 ≥ 9e-3, so
the runner aborts with the assertion failure. -/
theorem claim_C6_witness :
    (runnerMain "CompVis/stable-diffusion-v1-4" "PNDM" true [0] [1]).1
      = Except.error RunnerErr.assertionError :=
  (claim_C6 "CompVis/stable-diffusion-v1-4" "PNDM" [2, 77, 768]
      SchedulerKind.PNDM [0] [1] rfl rfl).mpr (by
    show (9 : ℚ) / 1000 ≤ largest_error [1] [0]
    norm_num [largest_error])

/-- C7 (counterexample): in the runner, with a known model and an unknown
scheduler identifier under `--compare_vs_torch`, the process does fail with
the lookup error — but only after the compiled artifact has been executed
(`run_scheduler` precedes the registry access in the source), so the
failure does not occur before all tensor computation. -/
theorem claim_C7_counterexample :
    (runnerMain "CompVis/stable-diffusion-v1-4" "LCMScheduler" true [] []).1
        = Except.error RunnerErr.keyError ∧
    Effect.runVmfb ∈ (runnerMain "CompVis/stable-diffusion-v1-4" "LCMScheduler" true [] []).2 := by
  refine ⟨rfl, ?_⟩
  decide

/-- C7 (amended): selecting a scheduler identifier that is not a key of the
registry fails with the lookup error at the registry access; in the exporter
this happens before any tensor computation (no network load, no loop step),
while in the runner the registry is consulted only after the compiled
artifact has already been executed, so there the lookup error follows that
execution but precedes the network load and the eager loop. -/
theorem claim_C7_amended (hf_model_name scheduler_id : String)
    (hlk : (get_schedulers hf_model_name).lookup scheduler_id = none) :
    exporterMain hf_model_name scheduler_id
        = (Except.error RunnerErr.keyError, []) ∧
    (∀ (sh : List Nat) (turbineOut torchOut : List ℚ),
        runnerEncoderHiddenStates hf_model_name = some sh →
        runnerMain hf_model_name scheduler_id true turbineOut torchOut
          = (Except.error RunnerErr.keyError, [Effect.runVmfb])) := by
  constructor
  · unfold exporterMain
    rw [hlk]
  · intro sh turbineOut torchOut hm
    unfold runnerMain
    rw [hm, hlk]
    rfl

/-- Witness for the amended C7 on a concrete unknown identifier. -/
theorem claim_C7_witness :
    runnerMain "CompVis/stable-diffusion-v1-4" "EulerDiscrete" true [] []
      = (Except.error RunnerErr.keyError, [Effect.runVmfb]) :=
  (claim_C7_amended "CompVis/stable-diffusion-v1-4" "EulerDiscrete"
      (by decide)).2 [2, 77, 768] [] [] (by decide)

/-- C8: for two configurations differing only in height and width (both
multiples of 8), the declared latent shapes agree on their first two
dimensions (batch and channel), their last two dimensions are exactly
`height/8` and `width/8`, and the declared conditioning shape — of the form
`(2, 77, E)` — is identical between the two configurations. -/
theorem claim_C8 (hf_model_name : String) (batch_size h w h2 w2 : Nat)
    (hh : 8 ∣ h) (hw : 8 ∣ w) (hh2 : 8 ∣ h2) (hw2 : 8 ∣ w2) :
    (exportDeclaredShapes hf_model_name batch_size h w).1.take 2
        = (exportDeclaredShapes hf_model_name batch_size h2 w2).1.take 2 ∧
    (exportDeclaredShapes hf_model_name batch_size h w).1.drop 2 = [h / 8, w / 8] ∧
    (exportDeclaredShapes hf_model_name batch_size h2 w2).1.drop 2 = [h2 / 8, w2 / 8] ∧
    (exportDeclaredShapes hf_model_name batch_size h w).2
        = (exportDeclaredShapes hf_model_name batch_size h2 w2).2 ∧
    (∃ E, (exportDeclaredShapes hf_model_name batch_size h w).2 = [2, 77, E]) := by
  refine ⟨rfl, rfl, rfl, rfl, ?_⟩
  unfold exportDeclaredShapes encoder_hidden_states_sizes
  split
  · exact ⟨1024, rfl⟩
  · exact ⟨768, rfl⟩

/-- Witness for C8 at the default 512×512 configuration against 256×256. -/
theorem claim_C8_witness :
    (exportDeclaredShapes "CompVis/stable-diffusion-v1-4" 1 512 512).1.drop 2
      = [512 / 8, 512 / 8] :=
  (claim_C8 "CompVis/stable-diffusion-v1-4" 1 512 512 256 256
    (by decide) (by decide) (by decide) (by decide)).2.1

/-- C10: invoking the runner with a model name other than the two known ones
leaves `encoder_hidden_states` unassigned, so the process fails with the
unbound-variable error (not the registry lookup error) and performs no
compiled-artifact execution, whatever the scheduler identifier and flags. -/
theorem claim_C10 (hf_model_name scheduler_id : String) (compareVsTorch : Bool)
    (turbineOut torchOut : List ℚ)
    (h1 : hf_model_name ≠ "CompVis/stable-diffusion-v1-4")
    (h2 : hf_model_name ≠ "stabilityai/stable-diffusion-2-1-base") :
    runnerMain hf_model_name scheduler_id compareVsTorch turbineOut torchOut
      = (Except.error RunnerErr.nameError, []) := by
  have hnone : runnerEncoderHiddenStates hf_model_name = none := by
    unfold runnerEncoderHiddenStates
    rw [if_neg h1, if_neg h2]
  unfold runnerMain
  rw [hnone]

/-- Witness for C10 on a concrete unknown model name. -/
theorem claim_C10_witness :
    runnerMain "runwayml/stable-diffusion-v1-5" "PNDM" true [] []
      = (Except.error RunnerErr.nameError, []) :=
  claim_C10 "runwayml/stable-diffusion-v1-5" "PNDM" true [] []
    (by decide) (by decide)
